import Mathlib

/-!
Verification of the asteroid-impact simulation core
(`src/lib/kinematics.ts` and the `useSimStore` zustand store).

Numbers are modelled as exact rationals `ℚ`; the single trancendental
operation of the code, `Math.cbrt` in the crater readout, is modelled over
`ℝ`.  `Math.PI` is modelled by its decimal value `piJS`.
-/

/-- The `Mitigation` union type of `useSimStore.ts`:
`'kinetic' | 'tractor' | 'laser'`. -/
inductive Mitigation
| kinetic
| tractor
| laser
deriving DecidableEq, Repr

/-- Input record of `simplePathAtTime` in `src/lib/kinematics.ts`. -/
structure PathInput where
  time : ℚ
  duration : ℚ
  approachAngleDeg : ℚ
  leadTime : ℚ
  mitigation : Mitigation
  mitigationPower : ℚ
deriving Repr

/-- Result record of `simplePathAtTime`. -/
structure PathOutput where
  impactLat : ℚ
  impactLon : ℚ
  eta : ℚ
deriving Repr

/-- `simplePathAtTime` from `src/lib/kinematics.ts`, translated literally.
The source mutates `driftLat`/`driftLon` through three independent `if`
statements on the mitigation kind inside the `apply` window; here the same
sums are written functionally.  `tNorm` is hoisted out of the window test
(it is a pure expression, so this is semantics preserving).  Note that the
window test uses `max 1 leadTime` while the numerator of `tNorm` subtracts
plain `leadTime`, exactly as in the source. -/
def simplePathAtTime (i : PathInput) : PathOutput :=
  let baseLat : ℚ := 40
  let baseLon : ℚ := -100
  let tNorm : ℚ := (i.time - (i.duration - i.leadTime)) / max 1 i.leadTime
  let power : ℚ := i.mitigationPower * tNorm
  let driftLat : ℚ :=
    if i.duration - max 1 i.leadTime < i.time then
      (if i.mitigation = Mitigation.kinetic then power * 5 else 0) +
      (if i.mitigation = Mitigation.tractor then power * 3 else 0) +
      (if i.mitigation = Mitigation.laser then power * 7 else 0)
    else 0
  let driftLon : ℚ :=
    if i.duration - max 1 i.leadTime < i.time then
      (if i.mitigation = Mitigation.kinetic then power * 8 else 0) +
      (if i.mitigation = Mitigation.tractor then power * 3 else 0) +
      (if i.mitigation = Mitigation.laser then power * 2 else 0)
    else 0
  let angleBias : ℚ := (i.approachAngleDeg - 45) / 90
  let lat : ℚ := baseLat + driftLat + angleBias * (i.time / i.duration) * 10
  let lon : ℚ := baseLon + driftLon + (i.time / i.duration) * 20
  let eta : ℚ := max 0 (i.duration - i.time)
  ⟨lat, lon, eta⟩

/-- JavaScript truncation toward zero, as used by the `%` operator. -/
def jsTrunc (q : ℚ) : ℤ := if 0 ≤ q then ⌊q⌋ else ⌈q⌉

/-- The JavaScript remainder operator `a % b` (sign follows the dividend). -/
def jsMod (a b : ℚ) : ℚ := a - b * (jsTrunc (a / b) : ℚ)

/-- `clampLat` from `src/scene/Asteroid.tsx`:
`THREE.MathUtils.clamp(lat, -89.999, 89.999)`, which is
`Math.max(-89.999, Math.min(89.999, lat))`.  Over `ℚ` every value is
finite, so the `Number.isFinite` guard branch (returning 0) never fires. -/
def clampLat (lat : ℚ) : ℚ := max (-89.999) (min 89.999 lat)

/-- `normLon` from `src/scene/Asteroid.tsx`:
`((lon % 360) + 540) % 360 - 180`, normalising into `[-180, 180)`.
As with `clampLat`, the non-finite guard branch cannot fire over `ℚ`. -/
def normLon (lon : ℚ) : ℚ := jsMod (jsMod lon 360 + 540) 360 - 180

/-- The double value of `Math.PI`, as a rational. -/
def piJS : ℚ := 3.141592653589793

/-- `estimateEnergyMtTNT` from `useSimStore.ts`: sphere mass times
`v²/2`, converted to megatons of TNT. -/
def estimateEnergyMtTNT (size_m density speed_kms : ℚ) : ℚ :=
  let r := size_m / 2
  let vol := (4 / 3) * piJS * r * r * r
  let mass := density * vol
  let v := speed_kms * 1000
  let joules := 0.5 * mass * v * v
  joules / 4.184e15

/-- `Math.cbrt` on the (nonnegative) energies produced by the store,
modelled over the reals as the 1/3 real power. -/
noncomputable def jsCbrt (q : ℚ) : ℝ := (q : ℝ) ^ ((1 : ℝ) / 3)

/-- The `Readouts` record of `useSimStore.ts`. -/
structure Readouts where
  speed : ℚ
  size : ℚ
  density : ℚ
  eta : ℚ
  energyTNT : ℚ
  craterKm : ℝ

/-- The state of the `useSimStore` zustand store, restricted to the
simulation core.  UI-only fields (mode, presets, selectedPresetId, panel
and shake flags) carry no physics and are omitted. -/
structure SimState where
  time : ℚ
  duration : ℚ
  running : Bool
  size : ℚ
  speed : ℚ
  density : ℚ
  approachAngle : ℚ
  mitigation : Mitigation
  mitigationPower : ℚ
  leadTime : ℚ
  impactLat : ℚ
  impactLon : ℚ
  blastKm : ℚ
  seismicKm : ℚ
  tsunamiKm : ℚ
  readouts : Readouts

namespace SimState

/-- `recalcHazards(n?)` from `useSimStore.ts`.  The source reads the
current store (`get()`) for fields absent from the optional override `n`;
here the current store is `s` and the three possible overrides are
explicit `Option` arguments.  It writes `blastKm`/`seismicKm`/`tsunamiKm`
and the whole `readouts` record; `eta` is `duration - time` (no clamping),
`craterKm` is `Math.cbrt(E) * 1.2`. -/
noncomputable def recalcHazards (s : SimState)
    (nsize nspeed ndensity : Option ℚ) : SimState :=
  let size := nsize.getD s.size
  let speed := nspeed.getD s.speed
  let density := ndensity.getD s.density
  let E := estimateEnergyMtTNT size density speed
  { s with
    blastKm := 80 + E * 5
    seismicKm := 40 + E * 2
    tsunamiKm := 120 + E * 6
    readouts :=
      { speed := speed, size := size, density := density,
        eta := s.duration - s.time, energyTNT := E,
        craterKm := jsCbrt E * 1.2 } }

/-- `tick(dt)`: early-returns when `!running`; otherwise sets
`time = Math.min(duration, time + dt)` (note: no lower clamp at 0) and
then calls `recalcHazards()` with no overrides. -/
noncomputable def tick (s : SimState) (dt : ℚ) : SimState :=
  if s.running then
    recalcHazards { s with time := min s.duration (s.time + dt) } none none none
  else s

/-- `start()`: `set({ running: true })`. -/
def start (s : SimState) : SimState := { s with running := true }

/-- `pause()`: `set({ running: false })`. -/
def pause (s : SimState) : SimState := { s with running := false }

/-- `reset()`: `set({ running: false, time: 0 })` — nothing else changes
and no recomputation is triggered. -/
def reset (s : SimState) : SimState := { s with running := false, time := 0 }

/-- `setImpactLatLon(lat, lon)`. -/
def setImpactLatLon (s : SimState) (lat lon : ℚ) : SimState :=
  { s with impactLat := lat, impactLon := lon }

/-- `hit()`: `set({ time: 0, running: true })`. -/
def hit (s : SimState) : SimState := { s with time := 0, running := true }

/-- `setRunning(v)`. -/
def setRunning (s : SimState) (v : Bool) : SimState := { s with running := v }

/-- `setTime(v)`: `set({ time: Math.max(0, Math.min(get().duration, v)) })`
— clamps into `[0, duration]` but does not recompute readouts. -/
def setTime (s : SimState) (v : ℚ) : SimState :=
  { s with time := max 0 (min s.duration v) }

/-- `setDuration(v)`: `set({ duration: Math.max(1, v) })` — does not
re-clamp `time` and does not recompute readouts. -/
def setDuration (s : SimState) (v : ℚ) : SimState :=
  { s with duration := max 1 v }

/-- `setSize(v)`: `set({ size: v }); recalcHazards({ size: v })` — the raw
value is stored with no validation or clamping. -/
noncomputable def setSize (s : SimState) (v : ℚ) : SimState :=
  recalcHazards { s with size := v } (some v) none none

/-- `setSpeed(v)`: `set({ speed: v }); recalcHazards({ speed: v })`. -/
noncomputable def setSpeed (s : SimState) (v : ℚ) : SimState :=
  recalcHazards { s with speed := v } none (some v) none

/-- `setDensity(v)`: `set({ density: v }); recalcHazards({ density: v })`. -/
noncomputable def setDensity (s : SimState) (v : ℚ) : SimState :=
  recalcHazards { s with density := v } none none (some v)

/-- `setApproachAngle(v)`. -/
def setApproachAngle (s : SimState) (v : ℚ) : SimState :=
  { s with approachAngle := v }

/-- `setMitigation(v)`. -/
def setMitigation (s : SimState) (v : Mitigation) : SimState :=
  { s with mitigation := v }

/-- `setMitigationPower(v)`. -/
def setMitigationPower (s : SimState) (v : ℚ) : SimState :=
  { s with mitigationPower := v }

/-- `setLeadTime(v)`. -/
def setLeadTime (s : SimState) (v : ℚ) : SimState :=
  { s with leadTime := v }

/-- `toggleRun()`. -/
def toggleRun (s : SimState) : SimState := { s with running := !s.running }

end SimState

/-- The runtime value passed to `setParam` (a number or a mitigation
kind). -/
inductive ParamValue
| num (v : ℚ)
| mit (m : Mitigation)

namespace SimState

/-- `setParam(key, value)` from `useSimStore.ts`: dispatches on the key
string to the individual setters; unknown keys fall through to the
`default` branch (no-op). -/
noncomputable def setParam (s : SimState) (key : String) (v : ParamValue) :
    SimState :=
  match key, v with
  | "mitigation", ParamValue.mit m => s.setMitigation m
  | "size", ParamValue.num q => s.setSize q
  | "speed", ParamValue.num q => s.setSpeed q
  | "density", ParamValue.num q => s.setDensity q
  | "approachAngle", ParamValue.num q => s.setApproachAngle q
  | "mitigationPower", ParamValue.num q => s.setMitigationPower q
  | "leadTime", ParamValue.num q => s.setLeadTime q
  | "duration", ParamValue.num q => s.setDuration q
  | "time", ParamValue.num q => s.setTime q
  | _, _ => s

end SimState

/-- The `base` literal of `useSimStore.ts`: the documented default
parameters, with zeroed hazard fields and placeholder readouts. -/
def simBase : SimState :=
  { time := 0, duration := 120, running := false,
    size := 120, speed := 18, density := 3000, approachAngle := 35,
    mitigation := Mitigation.kinetic, mitigationPower := 0.5, leadTime := 15,
    impactLat := 10, impactLon := 70,
    blastKm := 0, seismicKm := 0, tsunamiKm := 0,
    readouts := { speed := 0, size := 0, density := 0, eta := 0,
                  energyTNT := 0, craterKm := 0 } }

/-- The store's construction sequence: overwrite `base.impactLat/Lon` with
`simplePathAtTime` evaluated at `time = duration`, then `set(base)` and
`recalcHazards()`. -/
noncomputable def initState : SimState :=
  let ii := simplePathAtTime
    { time := simBase.duration, duration := simBase.duration,
      approachAngleDeg := simBase.approachAngle,
      leadTime := simBase.leadTime, mitigation := simBase.mitigation,
      mitigationPower := simBase.mitigationPower }
  SimState.recalcHazards
    { simBase with impactLat := ii.impactLat, impactLon := ii.impactLon }
    none none none

/-- Modelled from the spec (§4.2): the claimed effective mitigation drift,
`mitigationPower * clamp((elapsed - activationStart)/max(1,leadTime), 0, 1)`
with `activationStart = duration - max(1, leadTime)`.  Stated only to be
compared against the drift the code actually computes. -/
def specEffectiveDrift (t d lt power : ℚ) : ℚ :=
  power * max 0 (min 1 ((t - (d - max 1 lt)) / max 1 lt))

/-- The per-mitigation latitude drift multipliers appearing in
`simplePathAtTime` (`kinetic` 5, `tractor` 3, `laser` 7). -/
def latMul : Mitigation → ℚ
| Mitigation.kinetic => 5
| Mitigation.tractor => 3
| Mitigation.laser => 7

theorem piJS_pos : 0 < piJS := by norm_num [piJS]

/-- Closed multiplicative form of `estimateEnergyMtTNT`, convenient for
monotonicity and sign reasoning. -/
theorem estimateEnergyMtTNT_eq (sz d sp : ℚ) :
    estimateEnergyMtTNT sz d sp
      = d * piJS * sp ^ 2 * sz ^ 3 * (10 ^ 6 / (12 * 4.184e15)) := by
  unfold estimateEnergyMtTNT
  push_cast
  ring

/-- For a positive divisor and nonnegative dividend, the JavaScript
remainder lies in `[0, b)`. -/
theorem jsMod_nonneg_lt (a b : ℚ) (hb : 0 < b) (ha : 0 ≤ a) :
    0 ≤ jsMod a b ∧ jsMod a b < b := by
  have hdiv : 0 ≤ a / b := div_nonneg ha hb.le
  have htr : jsTrunc (a / b) = ⌊a / b⌋ := if_pos hdiv
  unfold jsMod
  rw [htr]
  constructor
  · have h1 : (⌊a / b⌋ : ℚ) ≤ a / b := Int.floor_le _
    have h2 : b * (⌊a / b⌋ : ℚ) ≤ b * (a / b) :=
      mul_le_mul_of_nonneg_left h1 hb.le
    have h3 : b * (a / b) = a := mul_div_cancel₀ a hb.ne'
    linarith
  · have h1 : a / b < (⌊a / b⌋ : ℚ) + 1 := Int.lt_floor_add_one _
    have h2 : b * (a / b) < b * ((⌊a / b⌋ : ℚ) + 1) :=
      mul_lt_mul_of_pos_left h1 hb
    have h3 : b * (a / b) = a := mul_div_cancel₀ a hb.ne'
    nlinarith

/-- For a positive divisor, the JavaScript remainder lies strictly between
`-b` and `b` (its sign follows the dividend). -/
theorem jsMod_bounds (a b : ℚ) (hb : 0 < b) :
    -b < jsMod a b ∧ jsMod a b < b := by
  rcases le_or_lt 0 a with ha | ha
  · obtain ⟨h0, h1⟩ := jsMod_nonneg_lt a b hb ha
    exact ⟨by linarith, h1⟩
  · have hdiv : a / b < 0 := div_neg_of_neg_of_pos ha hb
    have htr : jsTrunc (a / b) = ⌈a / b⌉ := if_neg (not_le.mpr hdiv)
    unfold jsMod
    rw [htr]
    constructor
    · have h1 : (⌈a / b⌉ : ℚ) < a / b + 1 := Int.ceil_lt_add_one _
      have h2 : b * (⌈a / b⌉ : ℚ) < b * (a / b + 1) :=
        mul_lt_mul_of_pos_left h1 hb
      have h3 : b * (a / b) = a := mul_div_cancel₀ a hb.ne'
      nlinarith
    · have h1 : a / b ≤ (⌈a / b⌉ : ℚ) := Int.le_ceil _
      have h2 : b * (a / b) ≤ b * (⌈a / b⌉ : ℚ) :=
        mul_le_mul_of_nonneg_left h1 hb.le
      have h3 : b * (a / b) = a := mul_div_cancel₀ a hb.ne'
      linarith

/-- `normLon` always lands in `[-180, 180)`. -/
theorem normLon_mem (lon : ℚ) : -180 ≤ normLon lon ∧ normLon lon < 180 := by
  obtain ⟨hm1, hm2⟩ := jsMod_bounds lon 360 (by norm_num)
  have hpos : (0 : ℚ) ≤ jsMod lon 360 + 540 := by linarith
  obtain ⟨h0, h1⟩ := jsMod_nonneg_lt (jsMod lon 360 + 540) 360 (by norm_num) hpos
  unfold normLon
  constructor <;> linarith

/-- `clampLat` always lands in `[-89.999, 89.999]`. -/
theorem clampLat_mem (lat : ℚ) :
    -89.999 ≤ clampLat lat ∧ clampLat lat ≤ 89.999 := by
  unfold clampLat
  refine ⟨le_max_left _ _, max_le (by norm_num) (min_le_left _ _)⟩

/-- C1: the spec requires that a locked target override forces
`simplePathAtTime` / the impact point to the locked coordinate
(`setTarget(51.5, -0.1)` then `advanceTime` must yield that coordinate).
The callers in `src/scene/Asteroid.tsx` do pass `targetLat`, `targetLon`
and `lockToTarget` — with the comment that this is required "so we
actually aim there" — but `simplePathAtTime` in `src/lib/kinematics.ts`
declares no such parameters and ignores them: at the failing input
(t = 0 and t = 60, duration 120, angle 45, leadTime 15, kinetic, power
0.5, locked target (51.5, -0.1)) it returns the hard-coded base
coordinate (40, -100)-derived point, never (51.5, -0.1). -/
theorem C1_target_lock_ignored :
    (simplePathAtTime ⟨0, 120, 45, 15, Mitigation.kinetic, 1/2⟩).impactLat = 40 ∧
    (simplePathAtTime ⟨0, 120, 45, 15, Mitigation.kinetic, 1/2⟩).impactLon = -100 ∧
    (simplePathAtTime ⟨60, 120, 45, 15, Mitigation.kinetic, 1/2⟩).impactLat = 40 ∧
    (simplePathAtTime ⟨60, 120, 45, 15, Mitigation.kinetic, 1/2⟩).impactLon = -90 ∧
    (40 : ℚ) ≠ 51.5 ∧ (-100 : ℚ) ≠ -0.1 ∧ (-90 : ℚ) ≠ -0.1 := by
  refine ⟨?_, ?_, ?_, ?_, by norm_num, by norm_num, by norm_num⟩ <;>
    norm_num [simplePathAtTime]

/-- C2, counterexample: `simplePathAtTime` performs no clamping at all.
At time = duration = 100, approach angle 1000°, leadTime 15, power 0, the
returned `impactLat` is 40 + (955/90)·10 ≈ 146.1 > 90, outside the
claimed `[-90, 90]` (and a fortiori outside `[-89.999, 89.999]`). -/
theorem C2_counterexample :
    90 < (simplePathAtTime ⟨100, 100, 1000, 15, Mitigation.kinetic, 0⟩).impactLat := by
  norm_num [simplePathAtTime]

/-- C2, amended: the clamping claimed by the spec lives not in
`simplePathAtTime` but in its caller (`src/scene/Asteroid.tsx`), whose
`clampLat`/`normLon` post-process the result before it is stored: for
every input, `clampLat` of the returned latitude is in
`[-89.999, 89.999]` and `normLon` of the returned longitude is in
`[-180, 180)`. -/
theorem C2_clamped_in_caller (i : PathInput) :
    -89.999 ≤ clampLat (simplePathAtTime i).impactLat ∧
    clampLat (simplePathAtTime i).impactLat ≤ 89.999 ∧
    -180 ≤ normLon (simplePathAtTime i).impactLon ∧
    normLon (simplePathAtTime i).impactLon < 180 := by
  obtain ⟨h1, h2⟩ := clampLat_mem (simplePathAtTime i).impactLat
  obtain ⟨h3, h4⟩ := normLon_mem (simplePathAtTime i).impactLon
  exact ⟨h1, h2, h3, h4⟩

/-- C3, counterexample: `setTime` does not recompute the readouts.  From
the initial store state (duration 120, time 0, readouts freshly computed
so `eta = 120`), calling `setTime(50)` leaves `readouts.eta = 120` while
`duration - time = 70`: a stale readout is observable, contradicting
"readouts.eta equals durationSeconds - elapsedSeconds immediately after
setTime". -/
theorem C3_counterexample :
    (initState.setTime 50).readouts.eta = 120 ∧
    (initState.setTime 50).duration - (initState.setTime 50).time = 70 ∧
    (120 : ℚ) ≠ 70 := by
  refine ⟨?_, ?_, by norm_num⟩ <;>
    norm_num [initState, simBase, SimState.recalcHazards, SimState.setTime]

/-- C3, amended: the setters that recompute (`setSize`, `setSpeed`,
`setDensity`) do expose the new value in the readouts immediately
(`readouts.size = X` right after `setSize(X)`, etc.), but `setTime` and
`setDuration` leave the readouts untouched, so `readouts.eta` can be
stale until the next `tick`/recompute. -/
theorem C3_setter_readouts (s : SimState) (v : ℚ) :
    (s.setParam "size" (ParamValue.num v)).readouts.size = v ∧
    (s.setSize v).readouts.size = v ∧
    (s.setSpeed v).readouts.speed = v ∧
    (s.setDensity v).readouts.density = v ∧
    (s.setParam "time" (ParamValue.num v)).readouts = s.readouts ∧
    (s.setTime v).readouts = s.readouts ∧
    (s.setDuration v).readouts = s.readouts := by
  have hp1 : s.setParam "size" (ParamValue.num v) = s.setSize v := rfl
  have hp2 : s.setParam "time" (ParamValue.num v) = s.setTime v := rfl
  rw [hp1, hp2]
  refine ⟨?_, ?_, ?_, ?_, rfl, rfl, rfl⟩ <;>
    simp [SimState.setSize, SimState.setSpeed, SimState.setDensity,
      SimState.recalcHazards]

/-- C4, counterexample: `tick` computes `time = min(duration, time + dt)`
with no lower clamp at 0, so a negative delta pushes `time` below zero:
from time 10 (running), `tick(-20)` yields time −10 < 0, contradicting
"a negative delta never pushes it below 0". -/
theorem C4_counterexample :
    (((initState.setTime 10).start).tick (-20)).time = -10 ∧ (-10 : ℚ) < 0 := by
  refine ⟨?_, by norm_num⟩
  norm_num [initState, simBase, SimState.recalcHazards, SimState.setTime,
    SimState.start, SimState.tick]

/-- C4, amended: `tick` is a no-op when `running` is false; when running,
the new time is `min(duration, time + dt)` — so an arbitrarily large
positive delta never pushes time above duration, but negative deltas are
not clamped at 0 (see the counterexample). -/
theorem C4_tick_clamp (s : SimState) (dt : ℚ) :
    (s.running = false → s.tick dt = s) ∧
    (s.running = true →
      (s.tick dt).time = min s.duration (s.time + dt) ∧
      (s.tick dt).time ≤ s.duration) := by
  constructor
  · intro h
    simp [SimState.tick, h]
  · intro h
    constructor
    · simp [SimState.tick, h, SimState.recalcHazards]
    · simp only [SimState.tick, h, if_true, SimState.recalcHazards]
      exact min_le_left _ _

/-- Witness for `C4_tick_clamp` at the initial state (not running) and at
the started initial state (running). -/
theorem C4_tick_clamp_witness :
    initState.tick 5 = initState ∧
    (initState.start.tick 5).time
      = min initState.start.duration (initState.start.time + 5) :=
  ⟨(C4_tick_clamp initState 5).1
      (by norm_num [initState, simBase, SimState.recalcHazards]),
   ((C4_tick_clamp initState.start 5).2
      (by norm_num [initState, simBase, SimState.recalcHazards,
        SimState.start])).1⟩

/-- C5, counterexample: `setDuration` does not clamp `time`.  From the
initial state, `setTime(100)` (legal: duration is 120) followed by
`setDuration(50)` leaves `time = 100 > 50 = duration`, violating the
claimed invariant `elapsedSeconds ≤ durationSeconds` after a public
operation. -/
theorem C5_counterexample :
    ((initState.setTime 100).setDuration 50).duration = 50 ∧
    ((initState.setTime 100).setDuration 50).time = 100 ∧
    ¬ ((100 : ℚ) ≤ 50) := by
  refine ⟨?_, ?_, by norm_num⟩ <;>
    norm_num [initState, simBase, SimState.recalcHazards, SimState.setTime,
      SimState.setDuration]

/-- C5, amended: `setTime` does maintain the bounds (it clamps its
argument into `[0, duration]`), but `setDuration` merely sets
`duration = max(1, v)` and leaves `time` untouched, so lowering the
duration below the current elapsed time breaks the invariant (see the
counterexample). -/
theorem C5_settime_bounds (s : SimState) (v w : ℚ) (h : 0 ≤ s.duration) :
    0 ≤ (s.setTime v).time ∧ (s.setTime v).time ≤ s.duration ∧
    (s.setDuration w).duration = max 1 w ∧
    (s.setDuration w).time = s.time := by
  refine ⟨le_max_left _ _, ?_, rfl, rfl⟩
  exact max_le h (min_le_left _ _)

/-- Witness for `C5_settime_bounds` at the initial state. -/
theorem C5_settime_bounds_witness :
    0 ≤ initState.duration ∧
    (0 ≤ (initState.setTime 50).time ∧
     (initState.setTime 50).time ≤ initState.duration ∧
     (initState.setDuration 30).duration = max 1 30 ∧
     (initState.setDuration 30).time = initState.time) :=
  ⟨by norm_num [initState, simBase, SimState.recalcHazards],
   C5_settime_bounds initState 50 30
     (by norm_num [initState, simBase, SimState.recalcHazards])⟩

/-- C6, counterexample: `reset` does not recompute the readouts.  After
running the clock to time 50 (`tick` recomputes, so `readouts.eta = 70`),
`reset` zeroes `time` and stops the clock but leaves `readouts.eta = 70`,
whereas the claim requires an immediate readout query to return
`etaSeconds = durationSeconds = 120`. -/
theorem C6_counterexample :
    ((initState.start.tick 50).reset).time = 0 ∧
    ((initState.start.tick 50).reset).running = false ∧
    ((initState.start.tick 50).reset).readouts.eta = 70 ∧
    ((initState.start.tick 50).reset).duration = 120 ∧
    (70 : ℚ) ≠ 120 := by
  refine ⟨?_, ?_, ?_, ?_, by norm_num⟩ <;>
    norm_num [initState, simBase, SimState.recalcHazards, SimState.start,
      SimState.tick, SimState.reset]

/-- C6, amended: `reset` sets `time = 0` and `running = false` and leaves
the physical parameters (and in fact the whole readouts record) exactly
as they were; `readouts.eta` therefore keeps its pre-reset value and only
equals `durationSeconds` once something recomputes the readouts. -/
theorem C6_reset_semantics (s : SimState) :
    s.reset.time = 0 ∧ s.reset.running = false ∧
    s.reset.size = s.size ∧ s.reset.speed = s.speed ∧
    s.reset.density = s.density ∧ s.reset.readouts = s.readouts :=
  ⟨rfl, rfl, rfl, rfl, rfl, rfl⟩

/-- C7, counterexample: the setters perform no validation or clamping.
`setSize(-120)` stores the negative diameter verbatim and the recomputed
energy readout is negative — an out-of-domain value propagated straight
into the derived readouts instead of being clamped to a valid boundary. -/
theorem C7_counterexample :
    (initState.setSize (-120)).size = -120 ∧
    (initState.setSize (-120)).readouts.energyTNT < 0 := by
  constructor
  · norm_num [initState, simBase, SimState.recalcHazards, SimState.setSize]
  · norm_num [initState, simBase, SimState.recalcHazards, SimState.setSize,
      estimateEnergyMtTNT, piJS]

/-- C7, amended: `setSize`/`setSpeed`/`setDensity` store the raw argument
without any domain check and feed it directly into
`estimateEnergyMtTNT`, so out-of-domain values flow into the readouts
(the counterexample shows a negative energy). -/
theorem C7_setters_unvalidated (s : SimState) (v : ℚ) :
    (s.setSize v).size = v ∧ (s.setSize v).readouts.size = v ∧
    (s.setSize v).readouts.energyTNT
      = estimateEnergyMtTNT v s.density s.speed ∧
    (s.setSpeed v).speed = v ∧ (s.setDensity v).density = v := by
  refine ⟨rfl, ?_, ?_, rfl, rfl⟩ <;>
    simp [SimState.setSize, SimState.recalcHazards]

/-- C8, counterexample: for size 120 m, density 3000 kg/m³, speed
18 km/s, the implemented formula gives an energy of more than 100 Mt TNT
(about 4.4·10¹⁷ J), not the claimed ≈ 4.9·10¹³ J ≈ 0.0117 Mt. -/
theorem C8_counterexample : 100 < estimateEnergyMtTNT 120 3000 18 := by
  norm_num [estimateEnergyMtTNT, piJS]

/-- C8, amended: the hand-computed value of the implemented formula at
size 120 m, density 3000 kg/m³, speed 18 km/s is
`energyMtTNT ≈ 105.0955 Mt` (i.e. `E_joules ≈ 4.397·10¹⁷ J`): it lies
strictly between 105.09 and 105.1. -/
theorem C8_energy_value :
    105.09 < estimateEnergyMtTNT 120 3000 18 ∧
    estimateEnergyMtTNT 120 3000 18 < 105.1 := by
  constructor <;> norm_num [estimateEnergyMtTNT, piJS]

/-- `estimateEnergyMtTNT` is strictly increasing in the diameter, for
fixed positive density and speed. -/
theorem estimateEnergyMtTNT_strictMono (d sp s1 s2 : ℚ)
    (hd : 0 < d) (hsp : 0 < sp) (h1 : 0 < s1) (h12 : s1 < s2) :
    estimateEnergyMtTNT s1 d sp < estimateEnergyMtTNT s2 d sp := by
  rw [estimateEnergyMtTNT_eq, estimateEnergyMtTNT_eq]
  have hpi := piJS_pos
  have hc : 0 < d * piJS * sp ^ 2 * (10 ^ 6 / (12 * 4.184e15)) := by positivity
  have hcube : s1 ^ 3 < s2 ^ 3 := by gcongr
  calc d * piJS * sp ^ 2 * s1 ^ 3 * (10 ^ 6 / (12 * 4.184e15))
      = d * piJS * sp ^ 2 * (10 ^ 6 / (12 * 4.184e15)) * s1 ^ 3 := by ring
    _ < d * piJS * sp ^ 2 * (10 ^ 6 / (12 * 4.184e15)) * s2 ^ 3 :=
        mul_lt_mul_of_pos_left hcube hc
    _ = d * piJS * sp ^ 2 * s2 ^ 3 * (10 ^ 6 / (12 * 4.184e15)) := by ring

/-- `estimateEnergyMtTNT` is positive on the valid domain. -/
theorem estimateEnergyMtTNT_pos (d sp sz : ℚ)
    (hd : 0 < d) (hsp : 0 < sp) (hsz : 0 < sz) :
    0 < estimateEnergyMtTNT sz d sp := by
  rw [estimateEnergyMtTNT_eq]
  have hpi := piJS_pos
  positivity

/-- C9: for `0 < size1 < size2` with positive density and speed held
fixed, the energy readout strictly increases, and every hazard radius
(blast, seismic, tsunami, crater) is non-decreasing along with it —
larger energy never produces a smaller radius. -/
theorem C9_energy_radius_monotone (s : SimState) (s1 s2 : ℚ)
    (h1 : 0 < s1) (h12 : s1 < s2) (hd : 0 < s.density) (hsp : 0 < s.speed) :
    (s.setSize s1).readouts.energyTNT < (s.setSize s2).readouts.energyTNT ∧
    (s.setSize s1).blastKm ≤ (s.setSize s2).blastKm ∧
    (s.setSize s1).seismicKm ≤ (s.setSize s2).seismicKm ∧
    (s.setSize s1).tsunamiKm ≤ (s.setSize s2).tsunamiKm ∧
    (s.setSize s1).readouts.craterKm ≤ (s.setSize s2).readouts.craterKm := by
  have hE : ∀ v : ℚ, (s.setSize v).readouts.energyTNT
      = estimateEnergyMtTNT v s.density s.speed := by
    intro v
    simp [SimState.setSize, SimState.recalcHazards]
  have hB : ∀ v : ℚ, (s.setSize v).blastKm
      = 80 + estimateEnergyMtTNT v s.density s.speed * 5 := by
    intro v
    simp [SimState.setSize, SimState.recalcHazards]
  have hS : ∀ v : ℚ, (s.setSize v).seismicKm
      = 40 + estimateEnergyMtTNT v s.density s.speed * 2 := by
    intro v
    simp [SimState.setSize, SimState.recalcHazards]
  have hT : ∀ v : ℚ, (s.setSize v).tsunamiKm
      = 120 + estimateEnergyMtTNT v s.density s.speed * 6 := by
    intro v
    simp [SimState.setSize, SimState.recalcHazards]
  have hC : ∀ v : ℚ, (s.setSize v).readouts.craterKm
      = jsCbrt (estimateEnergyMtTNT v s.density s.speed) * 1.2 := by
    intro v
    simp [SimState.setSize, SimState.recalcHazards]
  have hmono := estimateEnergyMtTNT_strictMono s.density s.speed s1 s2 hd hsp h1 h12
  have hpos := estimateEnergyMtTNT_pos s.density s.speed s1 hd hsp h1
  refine ⟨by rw [hE, hE]; exact hmono,
          by rw [hB, hB]; linarith,
          by rw [hS, hS]; linarith,
          by rw [hT, hT]; linarith, ?_⟩
  rw [hC, hC]
  unfold jsCbrt
  have h0 : (0 : ℝ) ≤ ((estimateEnergyMtTNT s1 s.density s.speed : ℚ) : ℝ) := by
    exact_mod_cast hpos.le
  have hle : ((estimateEnergyMtTNT s1 s.density s.speed : ℚ) : ℝ)
      ≤ ((estimateEnergyMtTNT s2 s.density s.speed : ℚ) : ℝ) := by
    exact_mod_cast hmono.le
  have hr := Real.rpow_le_rpow h0 hle (by norm_num : (0 : ℝ) ≤ 1 / 3)
  exact mul_le_mul_of_nonneg_right hr (by norm_num)

/-- Witness for `C9_energy_radius_monotone`: sizes 120 < 240 at the
initial state (density 3000, speed 18). -/
theorem C9_energy_radius_monotone_witness :
    ((0 : ℚ) < 120 ∧ (120 : ℚ) < 240 ∧
     0 < initState.density ∧ 0 < initState.speed) ∧
    ((initState.setSize 120).readouts.energyTNT
        < (initState.setSize 240).readouts.energyTNT ∧
     (initState.setSize 120).blastKm ≤ (initState.setSize 240).blastKm ∧
     (initState.setSize 120).seismicKm ≤ (initState.setSize 240).seismicKm ∧
     (initState.setSize 120).tsunamiKm ≤ (initState.setSize 240).tsunamiKm ∧
     (initState.setSize 120).readouts.craterKm
        ≤ (initState.setSize 240).readouts.craterKm) :=
  ⟨⟨by norm_num, by norm_num,
    by norm_num [initState, simBase, SimState.recalcHazards],
    by norm_num [initState, simBase, SimState.recalcHazards]⟩,
   C9_energy_radius_monotone initState 120 240 (by norm_num) (by norm_num)
     (by norm_num [initState, simBase, SimState.recalcHazards])
     (by norm_num [initState, simBase, SimState.recalcHazards])⟩

/-- C10, counterexample: for `leadTime = 0.5 < 1`, `duration = 100`,
`time = 99.2` (inside the activation window, since
`activationStart = 99`), the code's drift factor is
`(99.2 - (100 - 0.5)) / max(1, 0.5) = -0.3` — negative and unclamped —
so with kinetic mitigation at power 1 the latitude is
`40 - 0.3·5 = 38.5`, whereas the claimed formula
`power * clamp((t - activationStart)/max(1,leadTime), 0, 1)` gives drift
`0.2` and latitude `41`. -/
theorem C10_counterexample :
    (simplePathAtTime ⟨496/5, 100, 45, 1/2, Mitigation.kinetic, 1⟩).impactLat
      = 77/2 ∧
    40 + specEffectiveDrift (496/5) 100 (1/2) 1 * latMul Mitigation.kinetic
      = 41 ∧
    (77/2 : ℚ) ≠ 41 := by
  refine ⟨?_, ?_, by norm_num⟩
  · simp only [simplePathAtTime, reduceCtorEq, if_false, if_true, reduceIte]
    norm_num
  · norm_num [specEffectiveDrift, latMul]

/-- C10, amended: the drift is exactly zero for
`time ≤ duration - max(1, leadTime)`.  Inside the window the code uses
the unclamped factor `(time - (duration - leadTime)) / max(1, leadTime)`
(offset by `leadTime`, not `max(1, leadTime)`); for `leadTime ≥ 1` and
`time ≤ duration` this coincides with the claimed clamped formula
`mitigationPower * clamp((time - activationStart)/max(1,leadTime), 0, 1)`
scaled by the per-mitigation multiplier, but for `leadTime < 1` it can be
negative (see the counterexample). -/
theorem C10_drift_window (i : PathInput) :
    (i.time ≤ i.duration - max 1 i.leadTime →
      (simplePathAtTime i).impactLat
        = 40 + (i.approachAngleDeg - 45) / 90 * (i.time / i.duration) * 10 ∧
      (simplePathAtTime i).impactLon = -100 + i.time / i.duration * 20) ∧
    (1 ≤ i.leadTime → i.duration - max 1 i.leadTime < i.time →
     i.time ≤ i.duration →
      (simplePathAtTime i).impactLat
        = 40 + specEffectiveDrift i.time i.duration i.leadTime
                 i.mitigationPower * latMul i.mitigation
            + (i.approachAngleDeg - 45) / 90 * (i.time / i.duration) * 10) := by
  constructor
  · intro h
    have hb : ¬ (i.duration - max 1 i.leadTime < i.time) := not_lt.mpr h
    simp only [simplePathAtTime, if_neg hb]
    constructor <;> ring
  · intro h1 h2 h3
    have hmax : max 1 i.leadTime = i.leadTime := max_eq_right h1
    have hlt : (0 : ℚ) < i.leadTime := lt_of_lt_of_le one_pos h1
    have hnum : 0 ≤ i.time - (i.duration - i.leadTime) := by
      rw [hmax] at h2
      linarith
    have hdrift : specEffectiveDrift i.time i.duration i.leadTime
        i.mitigationPower
        = i.mitigationPower
            * ((i.time - (i.duration - i.leadTime)) / max 1 i.leadTime) := by
      unfold specEffectiveDrift
      rw [hmax]
      rw [min_eq_right (by rw [div_le_one hlt]; linarith)]
      rw [max_eq_right (div_nonneg hnum hlt.le)]
    rw [hdrift]
    cases hm : i.mitigation <;>
      simp only [simplePathAtTime, if_pos h2, hm, latMul,
        reduceCtorEq, if_true, if_false, reduceIte] <;>
      ring

/-- Witness for `C10_drift_window`: before the window (t = 50) and inside
the window (t = 110) of the default scenario. -/
theorem C10_drift_window_witness :
    ((simplePathAtTime ⟨50, 120, 45, 15, Mitigation.kinetic, 1/2⟩).impactLat
        = 40 + (45 - 45) / 90 * (50 / 120) * 10 ∧
     (simplePathAtTime ⟨50, 120, 45, 15, Mitigation.kinetic, 1/2⟩).impactLon
        = -100 + 50 / 120 * 20) ∧
    (simplePathAtTime ⟨110, 120, 45, 15, Mitigation.kinetic, 1/2⟩).impactLat
        = 40 + specEffectiveDrift 110 120 15 (1/2) * latMul Mitigation.kinetic
            + (45 - 45) / 90 * (110 / 120) * 10 :=
  ⟨(C10_drift_window ⟨50, 120, 45, 15, Mitigation.kinetic, 1/2⟩).1
      (by norm_num),
   (C10_drift_window ⟨110, 120, 45, 15, Mitigation.kinetic, 1/2⟩).2
      (by norm_num) (by norm_num) (by norm_num)⟩
